import Mathlib

/-!
Shallow embedding of the Ultimadata classifieds backend (src/server.py).

Conventions of the embedding:
* Timestamps (`datetime` values, their `.isoformat()` strings and their
  `.timestamp()` floats) are represented as rationals counting seconds since
  the epoch.  ISO-8601 UTC strings compare lexicographically exactly as their
  time values do, so one rational per instant is faithful for every comparison
  the source performs.
* MongoDB collections are lists of records in natural (insertion) order;
  `find_one` is `List.find?`, `update_one` updates the first match
  (`updateFirst`), `insert_one` appends, `delete_one` removes the first match
  (`List.eraseP`), and `.sort(spec)` is a stable sort by the BSON comparison
  order of the named fields.
* `dict.get(k)` on request bodies is an `Option` field; `dict.get(k, d)`
  defaults are applied at the use site exactly as the source does.
* HTTP calls to the Viva gateway are inputs to the function that performs
  them (`Option` results: `none` models a non-2xx response).
* `HTTPException(status_code, detail)` is the `HTTPError` record; handlers
  return their (possibly unchanged) state next to an `Except HTTPError`
  response, and the fire-and-forget e-mails they spawn are returned as a list
  of `EmailNotification` values.
-/

namespace Ultimadata

/-- Python `int()` on a rational: truncation toward zero. -/
def pyInt (q : ℚ) : ℤ := if 0 ≤ q then ⌊q⌋ else ⌈q⌉

/-- Python `round` to an integer: round half to even (banker's rounding). -/
def roundHalfEven (q : ℚ) : ℤ :=
  if q - ⌊q⌋ < 1/2 then ⌊q⌋
  else if 1/2 < q - ⌊q⌋ then ⌊q⌋ + 1
  else if Even ⌊q⌋ then ⌊q⌋ else ⌊q⌋ + 1

/-- Python `round(x, 1)`: round half to even at one decimal. -/
def round1 (q : ℚ) : ℚ := (roundHalfEven (10 * q) : ℚ) / 10

/-- Mongo `update_one`: apply `f` to the first element satisfying `p`. -/
def updateFirst (p : α → Bool) (f : α → α) : List α → List α
  | [] => []
  | a :: as => if p a then f a :: as else a :: updateFirst p f as

/-- `HTTPException(status_code=..., detail=...)`. -/
structure HTTPError where
  status_code : ℕ
  detail : String
deriving DecidableEq, Repr

/-- One fire-and-forget `send_email_notification(recipient, template, data)`. -/
structure EmailNotification where
  recipient : String
  template : String
deriving DecidableEq, Repr

/-- A document of the `ads` collection (the `ad_doc` shape of `create_ad`). -/
structure Ad where
  ad_id : String
  user_id : String
  title : Option String
  description : Option String
  category_id : Option String
  subcategory_id : Option String
  city_id : Option String
  price : Option ℚ
  price_type : String
  status : String
  is_boosted : Bool
  boost_expires_at : Option ℚ
  is_promoted : Bool
  promote_expires_at : Option ℚ
  views : ℕ
  is_paid : Bool
  auto_topup : Bool
  topup_rank : ℚ
  last_topup : Option ℚ
  created_at : ℚ
  updated_at : ℚ
deriving DecidableEq, Repr

/-- A document of the `payments` collection (the `payment_doc` shape of
`create_payment_order`). -/
structure PaymentOrder where
  payment_id : String
  order_code : Option ℤ
  ad_id : Option String
  user_id : String
  payment_type : String
  amount : ℤ
  status : String
  transaction_id : Option String
  created_at : ℚ
  completed_at : Option ℚ
deriving DecidableEq, Repr

/-- A document of the `reviews` collection. -/
structure Review where
  review_id : String
  reviewer_id : String
  seller_id : String
  ad_id : Option String
  rating : ℤ
  created_at : ℚ
deriving DecidableEq, Repr

/-- The fields of a `users` document that the modelled handlers read or
write.  `avg_rating`/`total_reviews` are absent (`none`) until the first
recomputation stores them; `referral_count` is read with default `0`, which
the `ℕ` field already encodes. -/
structure User where
  user_id : String
  email : String
  name : String
  role : String
  referral_count : ℕ
  avg_rating : Option ℚ
  total_reviews : Option ℕ
deriving DecidableEq, Repr

/-- The Mongo database: the collections the modelled handlers touch. -/
structure DB where
  ads : List Ad
  payments : List PaymentOrder
  reviews : List Review
  users : List User
deriving DecidableEq, Repr

/-! ## Ad creation (`create_ad`, src/server.py:1142-1214) -/

/-- The request body of `POST /ads`: `body.get(...)` fields. -/
structure AdCreateBody where
  title : Option String
  description : Option String
  category_id : Option String
  subcategory_id : Option String
  city_id : Option String
  price : Option ℚ
  price_type : Option String
  contact_email : Option String
deriving DecidableEq, Repr

/-- `is_escort_category`: the source hard-codes that every category is
auto-approved except the category id `"escorts"`, which requires manual
admin approval (comment at src/server.py:1149-1151). -/
def is_escort_category (category_id : Option String) : Bool :=
  category_id == some "escorts"

/-- The `ad_doc` record built by `create_ad` (src/server.py:1157-1184);
`ad_id` and the current instant `now` are passed in. -/
def create_ad_doc (user : User) (body : AdCreateBody) (ad_id : String) (now : ℚ) : Ad :=
  let initial_status := if is_escort_category body.category_id then "pending" else "active"
  { ad_id := ad_id
    user_id := user.user_id
    title := body.title
    description := body.description
    category_id := body.category_id
    subcategory_id := body.subcategory_id
    city_id := body.city_id
    price := body.price
    price_type := body.price_type.getD "fixed"
    status := initial_status
    is_boosted := false
    boost_expires_at := none
    is_promoted := false
    promote_expires_at := none
    views := 0
    is_paid := true
    auto_topup := true
    topup_rank := if initial_status == "active" then now else 0
    last_topup := if initial_status == "active" then some now else none
    created_at := now
    updated_at := now }

/-- The response body of `POST /ads`. -/
structure CreateAdResponse where
  ad_id : String
  status : String
  message : String
deriving DecidableEq, Repr

/-- `create_ad` (src/server.py:1142-1214): inserts the new ad document,
spawns the admin notification, and answers with the initial status. -/
def create_ad (user : User) (body : AdCreateBody) (ad_id : String) (now : ℚ) (db : DB) :
    DB × List EmailNotification × CreateAdResponse :=
  let ad_doc := create_ad_doc user body ad_id now
  let emails := [⟨"contact@x67digital.com", "admin_new_ad"⟩]
  if is_escort_category body.category_id then
    ({ db with ads := db.ads ++ [ad_doc] }, emails,
      ⟨ad_id, "pending", "Anunțul a fost creat și așteaptă aprobarea administratorului."⟩)
  else
    ({ db with ads := db.ads ++ [ad_doc] }, emails,
      ⟨ad_id, "active", "Anunțul a fost publicat cu succes!"⟩)

/-! ## Listing (`get_ads`, src/server.py:1216-1265) -/

/-- Sort direction of one Mongo sort component (`1` / `-1`). -/
inductive SortDir where
  | asc
  | desc
deriving DecidableEq, Repr

/-- A BSON value as compared by a Mongo sort on the fields `get_ads` names:
`Null` sorts before numbers, numbers before strings, strings before
booleans (BSON canonical type order).  ISO timestamp strings are carried as
their time value, which preserves their lexicographic order. -/
inductive BsonKey where
  | nullKey
  | numKey (q : ℚ)
  | strKey (q : ℚ)
  | boolKey (b : Bool)
deriving DecidableEq, Repr

/-- BSON type rank for the canonical cross-type sort order. -/
def BsonKey.typeRank : BsonKey → ℕ
  | .nullKey => 0
  | .numKey _ => 1
  | .strKey _ => 2
  | .boolKey _ => 3

/-- Ascending BSON comparison (`≤`) on the modelled values. -/
def BsonKey.le : BsonKey → BsonKey → Bool
  | .nullKey, .nullKey => true
  | .numKey a, .numKey b => a ≤ b
  | .strKey a, .strKey b => a ≤ b
  | .boolKey a, .boolKey b => a ≤ b
  | a, b => a.typeRank ≤ b.typeRank

/-- The sortable fields of an ad document, as BSON values. -/
def Ad.sortField (a : Ad) : String → BsonKey
  | "topup_rank" => .numKey a.topup_rank
  | "created_at" => .strKey a.created_at
  | "price" => match a.price with
    | none => .nullKey
    | some p => .numKey p
  | "is_boosted" => .boolKey a.is_boosted
  | "boost_expires_at" => match a.boost_expires_at with
    | none => .nullKey
    | some t => .strKey t
  | _ => .nullKey

/-- Lexicographic `≤` on ads induced by a Mongo sort specification. -/
def ad_le (spec : List (String × SortDir)) (a b : Ad) : Bool :=
  match spec with
  | [] => true
  | (f, d) :: rest =>
    let ka := a.sortField f
    let kb := b.sortField f
    if ka == kb then ad_le rest a b
    else match d with
      | .asc => ka.le kb
      | .desc => kb.le ka

/-- The `sort_options` dictionary of `get_ads` (src/server.py:1248-1256),
including the `.get(sort, sort_options["newest"])` default. -/
def sort_options (sort : String) : List (String × SortDir) :=
  if sort == "newest" then [("topup_rank", .desc), ("created_at", .desc)]
  else if sort == "oldest" then [("created_at", .asc)]
  else if sort == "price_low" then [("topup_rank", .desc), ("price", .asc)]
  else if sort == "price_high" then [("topup_rank", .desc), ("price", .desc)]
  else if sort == "boosted" then
    [("topup_rank", .desc), ("is_boosted", .desc), ("boost_expires_at", .desc), ("created_at", .desc)]
  else [("topup_rank", .desc), ("created_at", .desc)]

/-- The effective sort of `get_ads`: for the `escorts` category filter the
source prepends `topup_rank` and `is_boosted` and drops them from the mode's
own keys (src/server.py:1258-1260). -/
def sort_spec (sort : String) (category_id : Option String) : List (String × SortDir) :=
  let sort_by := sort_options sort
  if category_id == some "escorts" then
    [("topup_rank", SortDir.desc), ("is_boosted", SortDir.desc)] ++
      sort_by.filter (fun s => s.1 != "topup_rank" && s.1 != "is_boosted")
  else sort_by

/-- The query parameters of `GET /ads`. -/
structure AdsQueryParams where
  category_id : Option String
  subcategory_id : Option String
  city_id : Option String
  search : Option String
  min_price : Option ℚ
  max_price : Option ℚ
  sort : String
  page : ℕ
  limit : ℕ
deriving Repr

/-- The Mongo filter document `query` built by `get_ads`
(src/server.py:1228-1246).  The `$regex` matching of the `search` clause is
the store's text engine, abstracted as the predicate `search_matches`. -/
def matches_ads_query (p : AdsQueryParams) (search_matches : Ad → Bool) (a : Ad) : Bool :=
  a.status == "active"
  && (match p.category_id with
      | none => true
      | some c => a.category_id == some c)
  && (match p.subcategory_id with
      | none => true
      | some c => a.subcategory_id == some c)
  && (match p.city_id with
      | none => true
      | some c => a.city_id == some c)
  && (match p.search with
      | none => true
      | some _ => search_matches a)
  && (match p.min_price with
      | none => true
      | some m => match a.price with
        | none => false
        | some q => m ≤ q)
  && (match p.max_price with
      | none => true
      | some m => match a.price with
        | none => false
        | some q => q ≤ m)

/-- `get_ads` (src/server.py:1216-1265): filter, sort, paginate. -/
def get_ads (p : AdsQueryParams) (search_matches : Ad → Bool) (ads : List Ad) : List Ad :=
  let sort_by := sort_spec p.sort p.category_id
  let skip := (p.page - 1) * p.limit
  ((((ads.filter (matches_ads_query p search_matches)).insertionSort
      (fun a b => ad_le sort_by a b = true)).drop skip).take p.limit)

/-! ## Manual topup (`topup_ad`, src/server.py:1714-1757) -/

/-- `topup_ad`: ownership, active-status and cooldown checks, then the
`last_topup`/`topup_rank` update.  Returns the (possibly updated) ads
collection and, on success, the `next_topup_available_in` minutes of the
response. -/
def topup_ad (ad_id : String) (user : User) (now : ℚ) (ads : List Ad) :
    List Ad × Except HTTPError ℕ :=
  match ads.find? (fun a => a.ad_id == ad_id) with
  | none => (ads, .error ⟨404, "Ad not found"⟩)
  | some ad =>
    if ad.user_id != user.user_id then (ads, .error ⟨403, "Not your ad"⟩)
    else if ad.status != "active" then (ads, .error ⟨400, "Ad must be active to topup"⟩)
    else
      match ad.last_topup with
      | some last_topup_time =>
        let cooldown_minutes : ℕ := if user.referral_count > 0 then 40 else 60
        let time_since_topup : ℚ := (now - last_topup_time) / 60
        if time_since_topup < cooldown_minutes then
          let remaining := pyInt ((cooldown_minutes : ℚ) - time_since_topup)
          (ads, .error ⟨400, "Poți face TopUp din nou în " ++ toString remaining ++ " minute"⟩)
        else
          (updateFirst (fun a => a.ad_id == ad_id)
            (fun a => { a with last_topup := some now, topup_rank := now }) ads,
           .ok (if user.referral_count > 0 then 40 else 60))
      | none =>
        (updateFirst (fun a => a.ad_id == ad_id)
          (fun a => { a with last_topup := some now, topup_rank := now }) ads,
         .ok (if user.referral_count > 0 then 40 else 60))

/-! ## Payment order creation (`create_payment_order`, src/server.py:1444-1514) -/

/-- The static `PAYMENT_AMOUNTS` price table (src/server.py:1437-1441),
in minor currency units. -/
def PAYMENT_AMOUNTS : List (String × ℤ) :=
  [("post_ad", 1140), ("boost", 700), ("promote", 2999)]

/-- Response body of `POST /payments/create-order`. -/
structure CreateOrderResponse where
  order_code : Option ℤ
  checkout_url : String
  amount : ℚ
deriving DecidableEq, Repr

/-- `VIVA_CHECKOUT_BASE` in the default (`demo`) environment. -/
def VIVA_CHECKOUT_BASE : String := "https://demo.vivapayments.com"

/-- Python string interpolation of a possibly-missing order code. -/
def showOptInt : Option ℤ → String
  | none => "None"
  | some n => toString n

/-- `create_payment_order` (src/server.py:1444-1514).  The two gateway
round-trips are inputs: `token_resp` is the token-endpoint result
(`none` = non-200), `order_resp` the order-endpoint result
(`none` = non-200, otherwise the echoed `orderCode` field, itself optional).
The fresh `payment_id` and the current instant are passed in.  Returns the
(possibly unchanged) database and the response or error. -/
def create_payment_order (user : User) (ad_id : Option String) (payment_type : Option String)
    (token_resp : Option String) (order_resp : Option (Option ℤ))
    (payment_id : String) (now : ℚ) (db : DB) :
    DB × Except HTTPError CreateOrderResponse :=
  match payment_type.bind (fun t => (PAYMENT_AMOUNTS.find? (fun e => e.1 == t)).map Prod.snd) with
  | none => (db, .error ⟨400, "Invalid payment type"⟩)
  | some amount =>
    match token_resp with
    | none => (db, .error ⟨502, "Payment service unavailable"⟩)
    | some _access_token =>
      match order_resp with
      | none => (db, .error ⟨502, "Failed to create payment order"⟩)
      | some order_code =>
        let payment_doc : PaymentOrder :=
          { payment_id := payment_id
            order_code := order_code
            ad_id := ad_id
            user_id := user.user_id
            payment_type := payment_type.getD ""
            amount := amount
            status := "pending"
            transaction_id := none
            created_at := now
            completed_at := none }
        let checkout_url :=
          VIVA_CHECKOUT_BASE ++ "/web/checkout?ref=" ++ showOptInt order_code ++ "&lang=ro"
        ({ db with payments := db.payments ++ [payment_doc] },
         .ok ⟨order_code, checkout_url, (amount : ℚ) / 100⟩)

/-! ## Webhook reconciliation (`payment_webhook`, src/server.py:1516-1593) -/

/-- The decoded `MerchantTrns` correlation JSON (`{ad_id, payment_type,
user_id}` as embedded by `create_payment_order`); each field may be absent. -/
structure TrnsData where
  ad_id : Option String
  payment_type : Option String
  user_id : Option String
deriving DecidableEq, Repr

/-- The fields `payment_webhook` reads from the event body.  `merchant_trns
= none` models a `MerchantTrns` string that fails to parse as JSON (the
source then works with the empty dict, i.e. every lookup yields `None`). -/
structure WebhookEvent where
  transaction_id : Option String
  order_code : Option ℤ
  status_id : Option String
  merchant_trns : Option TrnsData
deriving DecidableEq, Repr

/-- `payment_webhook` (src/server.py:1516-1593): on the success status
`"F"` it completes the matching payment order, applies the ad effect keyed
by the correlation `payment_type`, and spawns the confirmation e-mail;
every path answers `"received"`. -/
def payment_webhook (body : WebhookEvent) (now : ℚ) (db : DB) :
    DB × List EmailNotification × String :=
  let trns_data := body.merchant_trns
  let ad_id := trns_data.bind TrnsData.ad_id
  let payment_type := trns_data.bind TrnsData.payment_type
  if body.status_id == some "F" then
    let payment := db.payments.find? (fun p => p.order_code == body.order_code)
    let payments1 := updateFirst (fun p => p.order_code == body.order_code)
      (fun p => { p with
        status := "completed"
        transaction_id := body.transaction_id
        completed_at := some now }) db.payments
    let ads1 :=
      if payment_type == some "post_ad" then
        updateFirst (fun a => some a.ad_id == ad_id)
          (fun a => { a with is_paid := true, status := "pending" }) db.ads
      else if payment_type == some "boost" then
        updateFirst (fun a => some a.ad_id == ad_id)
          (fun a => { a with is_boosted := true, boost_expires_at := some (now + 86400) }) db.ads
      else if payment_type == some "promote" then
        updateFirst (fun a => some a.ad_id == ad_id)
          (fun a => { a with is_promoted := true, promote_expires_at := some (now + 604800) }) db.ads
      else db.ads
    let emails :=
      match payment, ad_id with
      | some pay, some _aid =>
        match db.users.find? (fun u => u.user_id == pay.user_id) with
        | some u => if u.email != "" then [⟨u.email, "payment_success"⟩] else []
        | none => []
      | _, _ => []
    ({ db with ads := ads1, payments := payments1 }, emails, "received")
  else (db, [], "received")

/-! ## Admin moderation (`admin_update_ad_status`, src/server.py:2120-2162) -/

/-- `admin_update_ad_status`: validates the target status, spawns the
approval/rejection e-mail when the ad and its owner resolve, and runs the
`update_one` on the ad id (a no-op when nothing matches). -/
def admin_update_ad_status (ad_id : String) (new_status : Option String) (now : ℚ) (db : DB) :
    DB × List EmailNotification × Except HTTPError String :=
  match new_status with
  | none => (db, [], .error ⟨400, "Invalid status"⟩)
  | some s =>
    if ¬ (["pending", "active", "rejected", "expired"].contains s) then
      (db, [], .error ⟨400, "Invalid status"⟩)
    else
      let emails :=
        match db.ads.find? (fun a => a.ad_id == ad_id) with
        | some ad =>
          match db.users.find? (fun u => u.user_id == ad.user_id) with
          | some u =>
            if u.email != "" then
              if s == "active" then [⟨u.email, "ad_approved"⟩]
              else if s == "rejected" then [⟨u.email, "ad_rejected"⟩]
              else []
            else []
          | none => []
        | none => []
      let ads1 := updateFirst (fun a => a.ad_id == ad_id)
        (fun a => { a with status := s, updated_at := now }) db.ads
      ({ db with ads := ads1 }, emails, .ok ("Ad status updated to " ++ s))

/-! ## Reputation (`update_seller_rating`, src/server.py:2774-2794, and the
review endpoints that invoke it) -/

/-- `update_seller_rating`: the `$match`/`$group` aggregation over the
seller's reviews; when the aggregation yields a row (at least one review)
the user document is overwritten with the rounded mean and the count, and
when it yields no row nothing is written. -/
def update_seller_rating (seller_id : String) (db : DB) : DB :=
  let matching := db.reviews.filter (fun r => r.seller_id == seller_id)
  if matching.isEmpty then db
  else
    let total_reviews := matching.length
    let avg_rating : ℚ := (matching.map (fun r => (r.rating : ℚ))).sum / total_reviews
    { db with users :=
        (updateFirst (fun u => u.user_id == seller_id)
          (fun u => { u with
            avg_rating := some (round1 avg_rating)
            total_reviews := some total_reviews }) db.users) }

/-- The request body of `POST /reviews`. -/
structure ReviewCreate where
  seller_id : String
  ad_id : Option String
  rating : ℤ
  comment : Option String
deriving DecidableEq, Repr

/-- `create_review` (src/server.py:2726-2772): validation, duplicate and
self-review checks, insert, then the synchronous rating recomputation. -/
def create_review (data : ReviewCreate) (user : User) (review_id : String) (now : ℚ) (db : DB) :
    DB × Except HTTPError String :=
  if data.rating < 1 ∨ 5 < data.rating then
    (db, .error ⟨400, "Rating-ul trebuie să fie între 1 și 5"⟩)
  else if data.seller_id == user.user_id then
    (db, .error ⟨400, "Nu poți lăsa o recenzie pentru tine însuți"⟩)
  else
    match db.users.find? (fun u => u.user_id == data.seller_id) with
    | none => (db, .error ⟨404, "Vânzătorul nu a fost găsit"⟩)
    | some _seller =>
      match db.reviews.find? (fun r =>
          r.reviewer_id == user.user_id && r.seller_id == data.seller_id
            && r.ad_id == data.ad_id) with
      | some _existing => (db, .error ⟨400, "Ai lăsat deja o recenzie pentru acest vânzător"⟩)
      | none =>
        let review_doc : Review :=
          { review_id := review_id
            reviewer_id := user.user_id
            seller_id := data.seller_id
            ad_id := data.ad_id
            rating := data.rating
            created_at := now }
        let db1 := { db with reviews := db.reviews ++ [review_doc] }
        (update_seller_rating data.seller_id db1, .ok review_id)

/-- `delete_review` (src/server.py:2865-2885): permission check, first-match
delete, then the synchronous rating recomputation. -/
def delete_review (review_id : String) (user : User) (db : DB) :
    DB × Except HTTPError String :=
  match db.reviews.find? (fun r => r.review_id == review_id) with
  | none => (db, .error ⟨404, "Recenzia nu a fost găsită"⟩)
  | some review =>
    if review.reviewer_id != user.user_id && user.role != "admin" then
      (db, .error ⟨403, "Nu ai permisiunea să ștergi această recenzie"⟩)
    else
      let seller_id := review.seller_id
      let db1 := { db with reviews := db.reviews.eraseP (fun r => r.review_id == review_id) }
      (update_seller_rating seller_id db1, .ok "Recenzia a fost ștearsă")

/-- The ad-collection mutation a successful webhook event performs
(src/server.py:1550-1572), written as a function of the correlation-data
fields and the current instant alone (used to state that the effect is
keyed solely by them). -/
def apply_payment_effect (payment_type ad_id : Option String) (now : ℚ) (ads : List Ad) : List Ad :=
  if payment_type == some "post_ad" then
    updateFirst (fun a => some a.ad_id == ad_id)
      (fun a => { a with is_paid := true, status := "pending" }) ads
  else if payment_type == some "boost" then
    updateFirst (fun a => some a.ad_id == ad_id)
      (fun a => { a with is_boosted := true, boost_expires_at := some (now + 86400) }) ads
  else if payment_type == some "promote" then
    updateFirst (fun a => some a.ad_id == ad_id)
      (fun a => { a with is_promoted := true, promote_expires_at := some (now + 604800) }) ads
  else ads

/-! ## Concrete sample records used by witnesses and counterexamples -/

/-- A regular user without referrals. -/
def sampleUser : User := ⟨"u1", "u1@example.com", "U One", "user", 0, none, none⟩

/-- An administrator account. -/
def sampleAdmin : User := ⟨"adm", "adm@example.com", "Admin", "admin", 0, none, none⟩

/-- An active ad of `sampleUser` in a non-moderated category, created and
last topped up at instant 0. -/
def sampleAd : Ad :=
  ⟨"a1", "u1", some "t", none, some "auto", none, some "bucuresti", some 10, "fixed",
    "active", false, none, false, none, 0, true, true, 0, some 0, 0, 0⟩

/-- A pending payment order for a boost of `sampleAd`, gateway order code 7. -/
def samplePayment : PaymentOrder :=
  ⟨"p1", some 7, some "a1", "u1", "boost", 700, "pending", none, 0, none⟩

/-- A database holding `sampleAd`, `samplePayment` and `sampleUser`. -/
def samplePayDB : DB := ⟨[sampleAd], [samplePayment], [], [sampleUser]⟩

/-- A successful (`StatusId = "F"`) boost webhook event for order code 7
with parseable correlation data. -/
def sampleBoostEvent : WebhookEvent :=
  ⟨some "tx1", some 7, some "F", some ⟨some "a1", some "boost", some "u1"⟩⟩

/-- A successful webhook event for order code 7 whose `MerchantTrns` does
not parse as JSON. -/
def sampleMalformedEvent : WebhookEvent := ⟨some "tx1", some 7, some "F", none⟩

/-- An older escorts-category ad (created at 50) with the lower topup rank. -/
def sampleEscortOld : Ad :=
  ⟨"e1", "u1", none, none, some "escorts", none, none, none, "fixed",
    "active", false, none, false, none, 0, true, true, 3, some 3, 50, 50⟩

/-- A newer escorts-category ad (created at 100) with the higher topup rank. -/
def sampleEscortNew : Ad :=
  ⟨"e2", "u1", none, none, some "escorts", none, none, none, "fixed",
    "active", false, none, false, none, 0, true, true, 9, some 9, 100, 100⟩

/-- The listing query: escorts category, sort mode `oldest`, first page. -/
def sampleOldestEscortsQuery : AdsQueryParams :=
  ⟨some "escorts", none, none, none, none, none, "oldest", 1, 20⟩

/-- The listing query: no filters, sort mode `newest`, first page. -/
def sampleNewestQuery : AdsQueryParams :=
  ⟨none, none, none, none, none, none, "newest", 1, 20⟩

/-- A seller account. -/
def sampleSeller : User := ⟨"s1", "s1@example.com", "S One", "user", 0, none, none⟩

/-- A review of rating `r` with id `i` for `sampleSeller`. -/
def sampleReview (i : String) (r : ℤ) : Review := ⟨i, "b" ++ i, "s1", some "a9", r, 0⟩

/-- A database where `sampleSeller` has the three reviews {5, 4, 3}. -/
def sampleThreeReviewDB : DB :=
  ⟨[], [], [sampleReview "r1" 5, sampleReview "r2" 4, sampleReview "r3" 3], [sampleSeller]⟩

/-- A database where `sampleSeller` has exactly one rating-4 review and the
stored aggregate already reflects it (`avg_rating = 4.0`,
`total_reviews = 1`). -/
def sampleOneReviewDB : DB :=
  ⟨[], [], [sampleReview "r1" 4],
    [{ sampleSeller with avg_rating := some 4, total_reviews := some 1 }]⟩

/-- The empty database. -/
def emptyDB : DB := ⟨[], [], [], []⟩

/-- A publish request body in the non-moderated category `auto`. -/
def sampleAutoBody : AdCreateBody :=
  ⟨some "t", none, some "auto", none, some "cluj", some 5, none, none⟩

/-- A publish request body in the moderation-gated category `escorts`. -/
def sampleEscortsBody : AdCreateBody :=
  ⟨some "t", none, some "escorts", none, some "cluj", some 5, none, none⟩

/-! ## Helper lemmas -/

theorem updateFirst_eq_of_find?_none {α : Type} {p : α → Bool} {f : α → α} {l : List α}
    (h : l.find? p = none) : updateFirst p f l = l := by
  induction l with
  | nil => rfl
  | cons a as ih =>
    by_cases hpa : p a = true
    · rw [List.find?_cons_of_pos _ hpa] at h
      exact absurd h (by simp)
    · simp only [Bool.not_eq_true] at hpa
      rw [List.find?_cons_of_neg _ (by simp [hpa])] at h
      simp [updateFirst, hpa, ih h]

theorem find?_updateFirst_self {α : Type} {p : α → Bool} {f : α → α} {l : List α} {a : α}
    (h : l.find? p = some a) (hf : p (f a) = true) :
    (updateFirst p f l).find? p = some (f a) := by
  induction l with
  | nil => simp at h
  | cons b bs ih =>
    by_cases hpb : p b = true
    · rw [List.find?_cons_of_pos _ hpb] at h
      obtain rfl : b = a := Option.some.inj h
      simp [updateFirst, hpb, List.find?_cons_of_pos _ hf]
    · simp only [Bool.not_eq_true] at hpb
      rw [List.find?_cons_of_neg _ (by simp [hpb])] at h
      rw [show updateFirst p f (b :: bs) = b :: updateFirst p f bs from by
            simp [updateFirst, hpb],
          List.find?_cons_of_neg _ (by simp [hpb])]
      exact ih h

/-! ## C2: initial status and topup rank of a published ad -/

/-- C2: a `Publish` request creates exactly the document `create_ad_doc`;
an ad in the category designated as requiring manual moderation is created
with status `pending` and `topup_rank = 0`, every other ad is created
`active` with `topup_rank` equal to the creation instant, hence at least
the publish time. -/
theorem create_ad_initial_status_and_rank (user : User) (body : AdCreateBody)
    (ad_id : String) (now : ℚ) (db : DB) :
    (create_ad user body ad_id now db).1.ads = db.ads ++ [create_ad_doc user body ad_id now] ∧
    (is_escort_category body.category_id = true →
      (create_ad_doc user body ad_id now).status = "pending" ∧
      (create_ad_doc user body ad_id now).topup_rank = 0) ∧
    (is_escort_category body.category_id = false →
      (create_ad_doc user body ad_id now).status = "active" ∧
      (create_ad_doc user body ad_id now).topup_rank = now ∧
      now ≤ (create_ad_doc user body ad_id now).topup_rank) := by
  refine ⟨?_, ?_, ?_⟩
  · unfold create_ad
    by_cases h : is_escort_category body.category_id = true
    · simp [h]
    · simp only [Bool.not_eq_true] at h
      simp [h]
  · intro h
    simp [create_ad_doc, h]
  · intro h
    simp [create_ad_doc, h]

/-- Witness for C2 at the concrete escorts and auto publish bodies. -/
theorem create_ad_initial_status_and_rank_witness :
    ((create_ad_doc sampleUser sampleEscortsBody "adX" 500).status = "pending" ∧
      (create_ad_doc sampleUser sampleEscortsBody "adX" 500).topup_rank = 0) ∧
    ((create_ad_doc sampleUser sampleAutoBody "adX" 500).status = "active" ∧
      (create_ad_doc sampleUser sampleAutoBody "adX" 500).topup_rank = 500 ∧
      (500 : ℚ) ≤ (create_ad_doc sampleUser sampleAutoBody "adX" 500).topup_rank) :=
  ⟨(create_ad_initial_status_and_rank sampleUser sampleEscortsBody "adX" 500 emptyDB).2.1
      (by decide),
    (create_ad_initial_status_and_rank sampleUser sampleAutoBody "adX" 500 emptyDB).2.2
      (by decide)⟩

/-! ## C4: listing filter and sort contract -/

theorem sort_options_head_of_ne_oldest (s : String) (h : s ≠ "oldest") :
    (sort_options s).head? = some ("topup_rank", SortDir.desc) := by
  unfold sort_options
  split_ifs with h1 h2 h3 h4 h5
  · rfl
  · exact absurd (eq_of_beq h2) h
  · rfl
  · rfl
  · rfl
  · rfl

theorem sortField_created_at (a : Ad) : a.sortField "created_at" = .strKey a.created_at := rfl

theorem ad_le_created_at_asc (a b : Ad) :
    ad_le [("created_at", SortDir.asc)] a b = decide (a.created_at ≤ b.created_at) := by
  unfold ad_le
  rw [sortField_created_at, sortField_created_at]
  by_cases he : a.created_at = b.created_at
  · simp [he, ad_le]
  · have hk : (BsonKey.strKey a.created_at == BsonKey.strKey b.created_at) = false := by
      rw [beq_eq_false_iff_ne]
      simp [he]
    simp [hk, BsonKey.le]

/-- C4 (amended): every listed ad has status `active`; for every sort mode
other than `oldest` the primary sort key is `topup_rank` descending; mode
`oldest` ignores `topup_rank` and orders by `created_at` ascending alone —
except when the query filters the `escorts` category, where `topup_rank`
descending and `is_boosted` descending are prepended even in `oldest`
mode. -/
theorem get_ads_active_and_sort_contract (p : AdsQueryParams) (sm : Ad → Bool) (ads : List Ad) :
    (∀ a ∈ get_ads p sm ads, a.status = "active") ∧
    (p.sort ≠ "oldest" →
      (sort_spec p.sort p.category_id).head? = some ("topup_rank", SortDir.desc)) ∧
    (p.category_id ≠ some "escorts" →
      sort_spec "oldest" p.category_id = [("created_at", SortDir.asc)]) ∧
    (p.category_id ≠ some "escorts" → ∀ a b : Ad,
      ad_le (sort_spec "oldest" p.category_id) a b = decide (a.created_at ≤ b.created_at)) ∧
    (p.category_id = some "escorts" → sort_spec "oldest" p.category_id =
      [("topup_rank", SortDir.desc), ("is_boosted", SortDir.desc), ("created_at", SortDir.asc)]) := by
  have holdest : ∀ h : p.category_id ≠ some "escorts",
      sort_spec "oldest" p.category_id = [("created_at", SortDir.asc)] := by
    intro h
    have hc : (p.category_id == some "escorts") = false := by
      rw [beq_eq_false_iff_ne]; exact h
    simp [sort_spec, sort_options, hc]
  refine ⟨?_, ?_, holdest, ?_, ?_⟩
  · intro a ha
    unfold get_ads at ha
    have h2 := List.mem_of_mem_drop (List.mem_of_mem_take ha)
    rw [(List.perm_insertionSort _ _).mem_iff] at h2
    have h3 := List.of_mem_filter h2
    unfold matches_ads_query at h3
    simp only [Bool.and_eq_true] at h3
    exact eq_of_beq h3.1.1.1.1.1.1
  · intro h
    unfold sort_spec
    by_cases hc : (p.category_id == some "escorts") = true
    · rw [hc]
      rfl
    · simp only [Bool.not_eq_true] at hc
      rw [hc]
      simpa using sort_options_head_of_ne_oldest _ h
  · intro h a b
    rw [holdest h]
    exact ad_le_created_at_asc a b
  · intro h
    rw [h]
    decide

/-- Witness for C4 at the concrete `newest` and `oldest` queries. -/
theorem get_ads_active_and_sort_contract_witness :
    (sort_spec "newest" none).head? = some ("topup_rank", SortDir.desc) ∧
    sort_spec "oldest" none = [("created_at", SortDir.asc)] ∧
    sort_spec "oldest" (some "escorts") =
      [("topup_rank", SortDir.desc), ("is_boosted", SortDir.desc), ("created_at", SortDir.asc)] :=
  ⟨(get_ads_active_and_sort_contract sampleNewestQuery (fun _ => true) []).2.1 (by decide),
   (get_ads_active_and_sort_contract sampleNewestQuery (fun _ => true) []).2.2.1 (by decide),
   (get_ads_active_and_sort_contract sampleOldestEscortsQuery (fun _ => true) []).2.2.2.2 rfl⟩

/-- C4 counterexample: with the `escorts` category filter and sort mode
`oldest`, the ad with the higher `topup_rank` is listed first even though
it was created later, so `oldest` does not ignore `topup_rank` on that
query. -/
theorem get_ads_oldest_escorts_counterexample :
    (get_ads sampleOldestEscortsQuery (fun _ => true)
        [sampleEscortOld, sampleEscortNew]).map Ad.ad_id = ["e2", "e1"] ∧
    sampleEscortOld.created_at < sampleEscortNew.created_at ∧
    sampleEscortOld.topup_rank < sampleEscortNew.topup_rank := by
  decide

/-! ## Topup helper lemmas -/

theorem topup_ad_rate_limited (i : String) (user : User) (now : ℚ) (ads : List Ad)
    (ad : Ad) (lt : ℚ)
    (hfind : ads.find? (fun a => a.ad_id == i) = some ad)
    (howner : ad.user_id = user.user_id)
    (hactive : ad.status = "active")
    (hlt : ad.last_topup = some lt)
    (hcd : (now - lt) / 60 < ((if user.referral_count > 0 then 40 else 60 : ℕ) : ℚ)) :
    topup_ad i user now ads =
      (ads, .error ⟨400, "Poți face TopUp din nou în " ++
        toString (pyInt (((if user.referral_count > 0 then 40 else 60 : ℕ) : ℚ) -
          (now - lt) / 60)) ++ " minute"⟩) := by
  have h1 : (ad.user_id != user.user_id) = false := by simp [howner]
  have h2 : (ad.status != "active") = false := by simp [hactive]
  unfold topup_ad
  rw [hfind]
  simp only [h1, h2, Bool.false_eq_true, if_false, hlt]
  rw [if_pos hcd]

theorem topup_ad_success (i : String) (user : User) (now : ℚ) (ads : List Ad) (ad : Ad)
    (hfind : ads.find? (fun a => a.ad_id == i) = some ad)
    (howner : ad.user_id = user.user_id)
    (hactive : ad.status = "active")
    (hok : ad.last_topup = none ∨ ∃ lt, ad.last_topup = some lt ∧
      ¬ (now - lt) / 60 < ((if user.referral_count > 0 then 40 else 60 : ℕ) : ℚ)) :
    topup_ad i user now ads =
      (updateFirst (fun a => a.ad_id == i)
        (fun a => { a with last_topup := some now, topup_rank := now }) ads,
       .ok (if user.referral_count > 0 then 40 else 60)) := by
  have h1 : (ad.user_id != user.user_id) = false := by simp [howner]
  have h2 : (ad.status != "active") = false := by simp [hactive]
  unfold topup_ad
  rw [hfind]
  rcases hok with hnone | ⟨lt, hlt, hcd⟩
  · simp only [h1, h2, Bool.false_eq_true, if_false, hnone]
  · simp only [h1, h2, Bool.false_eq_true, if_false, hlt]
    rw [if_neg hcd]

/-! ## C3: manual topup cooldown contract -/

/-- C3: for a manual topup by the owner of an active ad: with a prior
`last_topup` the call fails with the rate-limit error carrying the
remaining whole minutes exactly when the elapsed minutes are below the
cooldown (40 with at least one referral, else 60); past the cooldown it
succeeds, sets `last_topup` and `topup_rank` to `now`, and strictly
increases `topup_rank` when the prior rank equals the prior topup instant;
with no prior `last_topup` it always succeeds. -/
theorem topup_ad_cooldown_contract (i : String) (user : User) (now : ℚ) (ads : List Ad)
    (ad : Ad)
    (hfind : ads.find? (fun a => a.ad_id == i) = some ad)
    (howner : ad.user_id = user.user_id)
    (hactive : ad.status = "active") :
    (∀ lt, ad.last_topup = some lt →
      (now - lt) / 60 < ((if user.referral_count > 0 then 40 else 60 : ℕ) : ℚ) →
      topup_ad i user now ads =
        (ads, .error ⟨400, "Poți face TopUp din nou în " ++
          toString (pyInt (((if user.referral_count > 0 then 40 else 60 : ℕ) : ℚ) -
            (now - lt) / 60)) ++ " minute"⟩)) ∧
    (∀ lt, ad.last_topup = some lt →
      ¬ (now - lt) / 60 < ((if user.referral_count > 0 then 40 else 60 : ℕ) : ℚ) →
      topup_ad i user now ads =
        (updateFirst (fun a => a.ad_id == i)
          (fun a => { a with last_topup := some now, topup_rank := now }) ads,
         .ok (if user.referral_count > 0 then 40 else 60)) ∧
      (topup_ad i user now ads).1.find? (fun a => a.ad_id == i) =
        some { ad with last_topup := some now, topup_rank := now } ∧
      (ad.topup_rank = lt → ad.topup_rank < now)) ∧
    (ad.last_topup = none →
      topup_ad i user now ads =
        (updateFirst (fun a => a.ad_id == i)
          (fun a => { a with last_topup := some now, topup_rank := now }) ads,
         .ok (if user.referral_count > 0 then 40 else 60))) := by
  refine ⟨?_, ?_, ?_⟩
  · intro lt hlt hcd
    exact topup_ad_rate_limited i user now ads ad lt hfind howner hactive hlt hcd
  · intro lt hlt hcd
    have hsucc := topup_ad_success i user now ads ad hfind howner hactive
      (Or.inr ⟨lt, hlt, hcd⟩)
    refine ⟨hsucc, ?_, ?_⟩
    · rw [hsucc]
      exact find?_updateFirst_self hfind (by simpa using List.find?_some hfind)
    · intro hrank
      rw [hrank]
      have hle : ((if user.referral_count > 0 then 40 else 60 : ℕ) : ℚ) ≤ (now - lt) / 60 :=
        not_lt.mp hcd
      have hcpos : (0 : ℚ) < ((if user.referral_count > 0 then 40 else 60 : ℕ) : ℚ) := by
        split_ifs <;> norm_num
      have hq : (0 : ℚ) < (now - lt) / 60 := lt_of_lt_of_le hcpos hle
      have hnl : 0 < now - lt := by
        rcases div_pos_iff.mp hq with ⟨h1, _⟩ | ⟨_, h2⟩
        · exact h1
        · norm_num at h2
      linarith
  · intro hnone
    exact topup_ad_success i user now ads ad hfind howner hactive (Or.inl hnone)

/-- Witness for C3: a topup 10 minutes after the last one is rejected with
50 minutes remaining; a topup 60 minutes after succeeds and raises
`topup_rank` from 0 to 3600. -/
theorem topup_ad_cooldown_contract_witness :
    topup_ad "a1" sampleUser 600 [sampleAd] =
      ([sampleAd], .error ⟨400, "Poți face TopUp din nou în 50 minute"⟩) ∧
    topup_ad "a1" sampleUser 3600 [sampleAd] =
      ([{ sampleAd with last_topup := some 3600, topup_rank := 3600 }], .ok 60) := by
  constructor
  · have h := (topup_ad_cooldown_contract "a1" sampleUser 600 [sampleAd] sampleAd
      rfl rfl rfl).1 0 rfl (by norm_num [sampleUser])
    rw [h]
    have h50 : pyInt (((if sampleUser.referral_count > 0 then 40 else 60 : ℕ) : ℚ) -
        (600 - 0) / 60) = 50 := by
      norm_num [sampleUser, pyInt]
    rw [h50]
    rfl
  · have h := ((topup_ad_cooldown_contract "a1" sampleUser 3600 [sampleAd] sampleAd
      rfl rfl rfl).2.1 0 rfl (by norm_num [sampleUser])).1
    rw [h]
    rfl

/-! ## C9: publication in a non-moderated category pre-arms the cooldown -/

/-- C9: publishing in a non-moderated category stores
`last_topup = creation instant` (not null), so a manual topup attempted
within the cooldown window after publication is rejected with the
rate-limit error even though no manual topup was ever performed. -/
theorem publish_presets_topup_cooldown (user : User) (body : AdCreateBody) (i : String)
    (now t : ℚ)
    (hcat : is_escort_category body.category_id = false)
    (hcd : (t - now) / 60 < ((if user.referral_count > 0 then 40 else 60 : ℕ) : ℚ)) :
    (create_ad_doc user body i now).last_topup = some now ∧
    topup_ad i user t [create_ad_doc user body i now] =
      ([create_ad_doc user body i now],
        .error ⟨400, "Poți face TopUp din nou în " ++
          toString (pyInt (((if user.referral_count > 0 then 40 else 60 : ℕ) : ℚ) -
            (t - now) / 60)) ++ " minute"⟩) := by
  have hlast : (create_ad_doc user body i now).last_topup = some now := by
    simp [create_ad_doc, hcat]
  refine ⟨hlast, ?_⟩
  exact topup_ad_rate_limited i user t [create_ad_doc user body i now]
    (create_ad_doc user body i now) now
    (by simp [create_ad_doc]) rfl (by simp [create_ad_doc, hcat]) hlast hcd

/-- Witness for C9: ten minutes after publication in the `auto` category,
the owner's first manual topup is rejected with 50 minutes remaining. -/
theorem publish_presets_topup_cooldown_witness :
    (create_ad_doc sampleUser sampleAutoBody "adX" 500).last_topup = some 500 ∧
    topup_ad "adX" sampleUser 1100 [create_ad_doc sampleUser sampleAutoBody "adX" 500] =
      ([create_ad_doc sampleUser sampleAutoBody "adX" 500],
        .error ⟨400, "Poți face TopUp din nou în 50 minute"⟩) := by
  have h := publish_presets_topup_cooldown sampleUser sampleAutoBody "adX" 500 1100
    (by decide) (by norm_num [sampleUser])
  refine ⟨h.1, ?_⟩
  rw [h.2]
  have h50 : pyInt (((if sampleUser.referral_count > 0 then 40 else 60 : ℕ) : ℚ) -
      (1100 - 500) / 60) = 50 := by
    norm_num [sampleUser, pyInt]
  rw [h50]
  rfl

/-! ## C7: no local payment record unless both gateway calls succeed -/

/-- C7: for a valid payment kind, failure of the token exchange or of the
gateway order creation surfaces a 502 service-unavailable error and leaves
the database unchanged; a local `pending` payment order keyed by the
gateway-issued order code is appended exactly when both gateway calls
succeed. -/
theorem create_payment_order_gateway_contract (user : User) (ad_id : Option String)
    (pt : String) (amount : ℤ) (token_resp : Option String) (order_resp : Option (Option ℤ))
    (pid : String) (now : ℚ) (db : DB)
    (hamt : (PAYMENT_AMOUNTS.find? (fun e => e.1 == pt)).map Prod.snd = some amount) :
    (token_resp = none →
      create_payment_order user ad_id (some pt) token_resp order_resp pid now db =
        (db, .error ⟨502, "Payment service unavailable"⟩)) ∧
    (∀ tok, token_resp = some tok → order_resp = none →
      create_payment_order user ad_id (some pt) token_resp order_resp pid now db =
        (db, .error ⟨502, "Failed to create payment order"⟩)) ∧
    (∀ tok oc, token_resp = some tok → order_resp = some oc →
      create_payment_order user ad_id (some pt) token_resp order_resp pid now db =
        ({ db with payments := db.payments ++
            [{ payment_id := pid, order_code := oc, ad_id := ad_id, user_id := user.user_id,
               payment_type := pt, amount := amount, status := "pending",
               transaction_id := none, created_at := now, completed_at := none }] },
         .ok ⟨oc, VIVA_CHECKOUT_BASE ++ "/web/checkout?ref=" ++ showOptInt oc ++ "&lang=ro",
           (amount : ℚ) / 100⟩)) := by
  refine ⟨?_, ?_, ?_⟩
  · intro h
    subst h
    unfold create_payment_order
    simp only [Option.some_bind]
    rw [hamt]
  · intro tok h1 h2
    subst h1
    subst h2
    unfold create_payment_order
    simp only [Option.some_bind]
    rw [hamt]
  · intro tok oc h1 h2
    subst h1
    subst h2
    unfold create_payment_order
    simp only [Option.some_bind]
    rw [hamt]
    rfl

/-- Witness for C7 at the concrete boost order: each gateway failure yields
the 502 with no record; success appends the pending record under order
code 42. -/
theorem create_payment_order_gateway_contract_witness :
    create_payment_order sampleUser (some "a1") (some "boost") none (some (some 42))
        "pay1" 5 emptyDB = (emptyDB, .error ⟨502, "Payment service unavailable"⟩) ∧
    create_payment_order sampleUser (some "a1") (some "boost") (some "tok") none
        "pay1" 5 emptyDB = (emptyDB, .error ⟨502, "Failed to create payment order"⟩) ∧
    (create_payment_order sampleUser (some "a1") (some "boost") (some "tok") (some (some 42))
        "pay1" 5 emptyDB).1.payments.map PaymentOrder.status = ["pending"] ∧
    (create_payment_order sampleUser (some "a1") (some "boost") (some "tok") (some (some 42))
        "pay1" 5 emptyDB).1.payments.map PaymentOrder.order_code = [some 42] := by
  have h := create_payment_order_gateway_contract sampleUser (some "a1") "boost" 700
    (some "tok") (some (some 42)) "pay1" 5 emptyDB rfl
  have h0 := create_payment_order_gateway_contract sampleUser (some "a1") "boost" 700
    none (some (some 42)) "pay1" 5 emptyDB rfl
  have h1 := create_payment_order_gateway_contract sampleUser (some "a1") "boost" 700
    (some "tok") none "pay1" 5 emptyDB rfl
  refine ⟨h0.1 rfl, h1.2.1 "tok" rfl rfl, ?_, ?_⟩
  · rw [h.2.2 "tok" (some 42) rfl rfl]
    rfl
  · rw [h.2.2 "tok" (some 42) rfl rfl]
    rfl

/-! ## C1: webhook replay re-applies the boost effect (code bug) -/

/-- C1 (code bug): delivering the same successful boost webhook event
twice re-applies the effect — the first delivery at instant 1000 stores
`boost_expires_at = 1000 + 86400`, the replay at instant 2000 overwrites
it with `2000 + 86400` and also overwrites `completed_at`, so the boost is
not applied exactly once and `boost_expires_at` changes on replay. -/
theorem payment_webhook_boost_replay_changes_expiry :
    ((payment_webhook sampleBoostEvent 1000 samplePayDB).1.ads.map Ad.boost_expires_at
      = [some (1000 + 86400)]) ∧
    (((payment_webhook sampleBoostEvent 2000
        (payment_webhook sampleBoostEvent 1000 samplePayDB).1).1.ads.map Ad.boost_expires_at)
      = [some (2000 + 86400)]) ∧
    some ((1000 : ℚ) + 86400) ≠ some ((2000 : ℚ) + 86400) ∧
    ((payment_webhook sampleBoostEvent 1000 samplePayDB).1.payments.map
        PaymentOrder.completed_at = [some 1000]) ∧
    ((payment_webhook sampleBoostEvent 2000
        (payment_webhook sampleBoostEvent 1000 samplePayDB).1).1.payments.map
        PaymentOrder.completed_at = [some 2000]) := by
  refine ⟨rfl, rfl, ?_, rfl, rfl⟩
  simp only [ne_eq, Option.some.injEq]
  norm_num

/-! ## C6: malformed correlation data -/

/-- C6 (amended): a webhook event whose correlation data does not parse is
answered `"received"`, mutates no ad and sends no e-mail; but on the
success status the completion update still runs against the payment order
matching the event's order code — only on a non-success status does
nothing at all change. -/
theorem payment_webhook_malformed_contract (body : WebhookEvent) (now : ℚ) (db : DB)
    (h : body.merchant_trns = none) :
    (payment_webhook body now db).1.ads = db.ads ∧
    (payment_webhook body now db).2.1 = [] ∧
    (payment_webhook body now db).2.2 = "received" ∧
    (body.status_id ≠ some "F" → payment_webhook body now db = (db, [], "received")) ∧
    (body.status_id = some "F" →
      (payment_webhook body now db).1.payments =
        updateFirst (fun p => p.order_code == body.order_code)
          (fun p => { p with status := "completed", transaction_id := body.transaction_id, completed_at := some now }) db.payments) := by
  by_cases hF : (body.status_id == some "F") = true
  · refine ⟨?_, ?_, ?_, ?_, ?_⟩
    · simp [payment_webhook, hF, h]
    · simp [payment_webhook, hF, h]
    · simp [payment_webhook, hF, h]
    · intro hne
      exact absurd (eq_of_beq hF) hne
    · intro _
      simp [payment_webhook, hF, h]
  · simp only [Bool.not_eq_true] at hF
    have hFne : body.status_id ≠ some "F" := by
      intro hc
      rw [hc] at hF
      simp at hF
    refine ⟨?_, ?_, ?_, ?_, ?_⟩
    · simp [payment_webhook, hF]
    · simp [payment_webhook, hF]
    · simp [payment_webhook, hF]
    · intro _
      simp [payment_webhook, hF]
    · intro hc
      exact absurd hc hFne

/-- Witness for C6: the malformed success event against the sample
database leaves the ads unchanged and answers `"received"`. -/
theorem payment_webhook_malformed_contract_witness :
    (payment_webhook sampleMalformedEvent 1000 samplePayDB).1.ads = samplePayDB.ads ∧
    (payment_webhook sampleMalformedEvent 1000 samplePayDB).2.2 = "received" := by
  have h := payment_webhook_malformed_contract sampleMalformedEvent 1000 samplePayDB rfl
  exact ⟨h.1, h.2.2.1⟩

/-- C6 counterexample: the same malformed success event does mutate the
payment-order collection — the order matching code 7 flips from `pending`
to `completed` — so "no mutation at all" is false. -/
theorem payment_webhook_malformed_mutates_payment :
    ((payment_webhook sampleMalformedEvent 1000 samplePayDB).1.payments.map
        PaymentOrder.status = ["completed"]) ∧
    samplePayDB.payments.map PaymentOrder.status = ["pending"] ∧
    (payment_webhook sampleMalformedEvent 1000 samplePayDB).1.payments.map
        PaymentOrder.status ≠ samplePayDB.payments.map PaymentOrder.status := by
  refine ⟨rfl, rfl, ?_⟩
  intro hc
  exact absurd hc (by decide)

/-! ## C10: the ad effect is keyed solely by the correlation data -/

/-- C10: for a successful webhook event the ad mutation is exactly
`apply_payment_effect` of the correlation `payment_type` and `ad_id`, the
instant and the prior ads — independent of the payments and users
collections, hence applied even when no payment order matches the order
code — while the completion update runs unconditionally on the order code
and the payment lookup feeds only the confirmation e-mail. -/
theorem payment_webhook_effect_keyed_by_correlation (body : WebhookEvent) (now : ℚ) (db : DB)
    (hs : body.status_id = some "F") :
    (payment_webhook body now db).1.ads =
      apply_payment_effect (body.merchant_trns.bind TrnsData.payment_type)
        (body.merchant_trns.bind TrnsData.ad_id) now db.ads ∧
    (∀ payments2 : List PaymentOrder, ∀ users2 : List User,
      (payment_webhook body now ⟨db.ads, payments2, db.reviews, users2⟩).1.ads =
        (payment_webhook body now db).1.ads) ∧
    (payment_webhook body now db).1.payments =
      updateFirst (fun p => p.order_code == body.order_code)
        (fun p => { p with status := "completed", transaction_id := body.transaction_id, completed_at := some now }) db.payments := by
  have hF : (body.status_id == some "F") = true := by
    rw [hs]
    rfl
  refine ⟨?_, ?_, ?_⟩
  · simp [payment_webhook, hF, apply_payment_effect]
  · intro p2 u2
    simp [payment_webhook, hF]
  · simp [payment_webhook, hF]

/-- Witness for C10: the successful boost event applies the boost to the
ad even though the payments collection is empty. -/
theorem payment_webhook_effect_keyed_witness :
    (payment_webhook sampleBoostEvent 1000 ⟨[sampleAd], [], [], []⟩).1.ads =
      apply_payment_effect (some "boost") (some "a1") 1000 [sampleAd] ∧
    (apply_payment_effect (some "boost") (some "a1") 1000 [sampleAd]).map Ad.is_boosted
      = [true] :=
  ⟨(payment_webhook_effect_keyed_by_correlation sampleBoostEvent 1000
      ⟨[sampleAd], [], [], []⟩ rfl).1, rfl⟩

/-! ## C8: unknown-id handling -/

/-- C8 (amended): a topup addressed to an ad id that resolves to no record
is rejected with a 404 not-found error and no mutation; the administrator
status update on an unknown ad id is NOT rejected — with a valid target
status it answers success while mutating nothing, because the update
matches no record. -/
theorem unknown_id_handling (i : String) (user : User) (now : ℚ) (ads : List Ad)
    (db : DB) (s : String)
    (htop : ads.find? (fun a => a.ad_id == i) = none)
    (hadm : db.ads.find? (fun a => a.ad_id == i) = none)
    (hs : ["pending", "active", "rejected", "expired"].contains s = true) :
    topup_ad i user now ads = (ads, .error ⟨404, "Ad not found"⟩) ∧
    admin_update_ad_status i (some s) now db =
      (db, [], .ok ("Ad status updated to " ++ s)) := by
  constructor
  · unfold topup_ad
    rw [htop]
  · simp only [admin_update_ad_status]
    rw [if_neg (not_not_intro hs), hadm, updateFirst_eq_of_find?_none hadm]

/-- Witness for C8: topup of the unknown id `"ghost"` is a 404 on the
sample database; the admin status update on `"ghost"` succeeds there. -/
theorem unknown_id_handling_witness :
    topup_ad "ghost" sampleUser 5 [sampleAd] =
      ([sampleAd], .error ⟨404, "Ad not found"⟩) ∧
    admin_update_ad_status "ghost" (some "active") 5 samplePayDB =
      (samplePayDB, [], .ok "Ad status updated to active") := by
  have h := unknown_id_handling "ghost" sampleUser 5 [sampleAd] samplePayDB "active"
    rfl rfl rfl
  exact ⟨h.1, h.2⟩

/-- C8 counterexample: the administrator status update addressed to an ad
id that resolves to no record answers success (`Except.ok`) instead of
being rejected with a not-found error. -/
theorem admin_update_unknown_ad_succeeds :
    admin_update_ad_status "ghost" (some "active") 5 emptyDB =
      (emptyDB, [], .ok "Ad status updated to active") := rfl

/-! ## C5: seller reputation aggregate -/

/-- C5 (amended): the synchronous recomputation run after every review
create or delete stores the one-decimal-rounded arithmetic mean and the
count of the seller's current reviews whenever at least one review
remains; when zero reviews remain it writes nothing, leaving the stored
aggregate at its prior value rather than setting a zero-state. -/
theorem update_seller_rating_contract (sid : String) (db : DB) (u : User)
    (hu : db.users.find? (fun v => v.user_id == sid) = some u) :
    (db.reviews.filter (fun r => r.seller_id == sid) = [] →
      update_seller_rating sid db = db) ∧
    (∀ r0 rs, db.reviews.filter (fun r => r.seller_id == sid) = r0 :: rs →
      (update_seller_rating sid db).users.find? (fun v => v.user_id == sid) =
        some { u with
          avg_rating := some (round1
            (((r0 :: rs).map (fun r => (r.rating : ℚ))).sum / ((r0 :: rs).length : ℚ))),
          total_reviews := some (r0 :: rs).length }) := by
  constructor
  · intro h
    simp [update_seller_rating, h]
  · intro r0 rs h
    simp only [update_seller_rating, h, List.isEmpty_cons, if_false, Bool.false_eq_true]
    exact find?_updateFirst_self hu (by simpa using List.find?_some hu)

/-- Witness for C5: with the reviews {5, 4, 3} the stored aggregate
becomes `avg_rating = 4.0`, `total_reviews = 3`. -/
theorem update_seller_rating_contract_witness :
    ((update_seller_rating "s1" sampleThreeReviewDB).users.find?
      (fun v => v.user_id == "s1")).map User.avg_rating = some (some 4) ∧
    ((update_seller_rating "s1" sampleThreeReviewDB).users.find?
      (fun v => v.user_id == "s1")).map User.total_reviews = some (some 3) := by
  have h := (update_seller_rating_contract "s1" sampleThreeReviewDB sampleSeller rfl).2
    (sampleReview "r1" 5) [sampleReview "r2" 4, sampleReview "r3" 3] rfl
  have h4 : round1 ((([sampleReview "r1" 5, sampleReview "r2" 4, sampleReview "r3" 3].map
      (fun r => (r.rating : ℚ))).sum) / (([sampleReview "r1" 5, sampleReview "r2" 4,
        sampleReview "r3" 3].length : ℚ))) = 4 := by
    norm_num [sampleReview, round1, roundHalfEven, List.map_cons, List.map_nil,
      List.sum_cons, List.sum_nil, List.length_cons, List.length_nil]
  rw [h4] at h
  rw [h]
  exact ⟨rfl, rfl⟩

/-- C5 counterexample: deleting the seller's last review leaves the stored
aggregate at its prior value (`avg_rating = 4.0`, `total_reviews = 1`)
with zero reviews remaining — no zero-state is written. -/
theorem delete_last_review_keeps_stale_aggregate :
    ((delete_review "r1" sampleAdmin sampleOneReviewDB).1.reviews = []) ∧
    ((delete_review "r1" sampleAdmin sampleOneReviewDB).1.users.map User.avg_rating
      = [some 4]) ∧
    ((delete_review "r1" sampleAdmin sampleOneReviewDB).1.users.map User.total_reviews
      = [some 1]) :=
  ⟨rfl, rfl, rfl⟩

end Ultimadata
